import Mathlib

set_option maxRecDepth 8000

/-!
Verification of the lead/estimate intake backend (src/main.py together
with the pydantic models of src/schemas.py): filename sanitization and
unique-name generation for uploads, the validation models, and the two
submit handlers, with the document-store adapter and the form-parsing
framework layer modelled from the specification (their code, database.py
and the web framework, is not part of this repository's sources).
-/

/-- Index of the last occurrence of a character in a list of characters,
if any (the found/not-found form of CPython str.rfind for a
one-character needle). -/
def lastIdx : List Char → Char → Option Nat
  | [], _ => none
  | a :: rest, c =>
    match lastIdx rest c with
    | some i => some (i + 1)
    | none => if a = c then some 0 else none

/-- os.path.splitext with POSIX semantics (sep '/', extsep '.'), as used
at src/main.py line 108: split at the last dot when it lies after the
last path separator and at least one non-dot character stands between
the separator (or the string start) and that dot; otherwise the
extension is empty. -/
def splitext (p : String) : String × String :=
  let cs := p.data
  match lastIdx cs '.' with
  | none => (p, "")
  | some d =>
    let goodDot : Bool :=
      match lastIdx cs '/' with
      | none => true
      | some sp => decide (sp < d)
    let fnStart : Nat :=
      match lastIdx cs '/' with
      | none => 0
      | some sp => sp + 1
    if goodDot && ((cs.take d).drop fnStart).any (fun c => c != '.') then
      (String.mk (cs.take d), String.mk (cs.drop d))
    else (p, "")

/-- base.replace(" ", "_")[:50] from src/main.py line 109: every space
character (U+0020) becomes an underscore, then the result is truncated
to its first 50 characters. -/
def sanitizeBase (base : String) : String :=
  String.mk ((base.data.map (fun c => if c = ' ' then '_' else c)).take 50)

/-- The stored filename built at src/main.py line 110 from the original
filename and the hex-encoded random suffix:
safe_base ++ "_" ++ suffix ++ ext. -/
def uniqueName (filename : String) (suffix : String) : String :=
  sanitizeBase (splitext filename).1 ++ "_" ++ suffix ++ (splitext filename).2

/-- Lowercase hexadecimal digit of a value below 16 (as produced by
bytes.hex()). -/
def hexDigit (n : Nat) : Char :=
  "0123456789abcdef".data.getD n '0'

/-- Two lowercase hex digits of one byte, high nibble first (one byte of
bytes.hex()); the byte value is taken modulo 256. -/
def byteHex (b : Nat) : List Char :=
  [hexDigit (b % 256 / 16), hexDigit (b % 16)]

/-- os.urandom(n).hex() from src/main.py line 110, with the random bytes
passed in explicitly: the concatenation of each byte's two lowercase hex
digits. -/
def bytesHex (bs : List Nat) : String :=
  String.mk ((bs.map byteHex).flatten)

/-- Whether a character is a lowercase hexadecimal digit. -/
def isHexChar (c : Char) : Bool :=
  "0123456789abcdef".data.contains c

/-- Modelled from the spec: pydantic's EmailStr syntactic email check
(the email-validator package backing it is not part of this
repository). The spec requires a "syntactically valid email"; modelled
as: exactly one '@', a non-empty local part, and a non-empty domain
that contains a dot and neither starts nor ends with one. -/
def isValidEmail (s : String) : Bool :=
  let cs := s.data
  let localPart := cs.takeWhile (fun c => c != '@')
  let dom := (cs.dropWhile (fun c => c != '@')).drop 1
  cs.count '@' == 1 && !localPart.isEmpty && !dom.isEmpty &&
    dom.contains '.' && dom.head? != some '.' && dom.getLast? != some '.'

/-- Validation failure raised by pydantic model construction; for the
Lead/Estimate models every field is an unconstrained str except email
(EmailStr), so the only constraint that the handlers can violate is a
malformed email. -/
inductive ValidationError where
  | invalidEmail (value : String)
deriving DecidableEq, Repr

/-- The Lead model of src/schemas.py lines 42-49. -/
structure Lead where
  name : String
  email : String
  phone : String
  service_needed : String
  address : Option String
  message : Option String
  source : Option String
deriving DecidableEq, Repr

/-- The Estimate model of src/schemas.py lines 52-60. -/
structure Estimate where
  name : String
  email : String
  phone : String
  service_needed : String
  address : Option String
  message : Option String
  photo_filenames : List String
  source : Option String
deriving DecidableEq, Repr

/-- Pydantic construction of a Lead (src/schemas.py lines 42-49): the
required fields are plain str with no length constraint, so any string
(including "") is accepted for them; only the EmailStr field is
checked. Construction is all-or-nothing. -/
def Lead.construct (name email phone service_needed : String)
    (address message source : Option String) : Except ValidationError Lead :=
  if isValidEmail email then
    Except.ok ⟨name, email, phone, service_needed, address, message, source⟩
  else
    Except.error (ValidationError.invalidEmail email)

/-- Pydantic construction of an Estimate (src/schemas.py lines 52-60),
analogous to Lead.construct. -/
def Estimate.construct (name email phone service_needed : String)
    (address message : Option String) (photo_filenames : List String)
    (source : Option String) : Except ValidationError Estimate :=
  if isValidEmail email then
    Except.ok ⟨name, email, phone, service_needed, address, message,
      photo_filenames, source⟩
  else
    Except.error (ValidationError.invalidEmail email)

/-- A document handed to create_document: either model instance. -/
inductive Document where
  | lead (l : Lead)
  | estimate (e : Estimate)
deriving DecidableEq, Repr

/-- The source field of a persisted document. -/
def docSource : Document → Option String
  | Document.lead l => l.source
  | Document.estimate e => e.source

/-- Modelled from the spec: the outcome of one call to create_document
(the Document Store Adapter lives in database.py, which is not among
this repository's sources). `Except.ok i` is the store-generated
identifier of the newly inserted document; `Except.error d` is a store
failure with detail d. Store-generated identifiers are non-empty. The
adapter performs a single best-effort insert attempt, no retries. -/
structure StoreBehavior where
  result : Except String String
  id_nonempty : ∀ i, result = Except.ok i → i ≠ ""

/-- Raw form fields of a Submit Lead request as seen by the framework
layer: a required field may be absent. -/
structure LeadForm where
  name : Option String
  email : Option String
  phone : Option String
  service_needed : Option String
  address : Option String
  message : Option String
deriving DecidableEq, Repr

/-- Raw form fields of a Submit Estimate request: the Lead fields plus
the uploaded photos as (original filename, byte content) pairs, in
upload order (bytes as naturals below 256). -/
structure EstimateForm where
  name : Option String
  email : Option String
  phone : Option String
  service_needed : Option String
  address : Option String
  message : Option String
  photos : List (String × List Nat)
deriving DecidableEq, Repr

/-- Modelled from the spec: the request-routing framework layer that
"parses form-encoded requests and dispatches to the two operations".
A required form field (declared Form(...) in the handler signatures,
src/main.py lines 71-74 and 96-99) that is absent makes the framework
reject the request before the handler body runs; this lists the
missing required fields in declaration order. -/
def missingRequired (name email phone service_needed : Option String) :
    List String :=
  (if name.isNone then ["name"] else []) ++
    (if email.isNone then ["email"] else []) ++
    (if phone.isNone then ["phone"] else []) ++
    (if service_needed.isNone then ["service_needed"] else [])

/-- Outcome of a Submit Lead request (transport framing abstracted):
success carries the store id; formError is the framework's rejection of
a request missing required form fields; validationFailure is a pydantic
ValidationError propagating out of the handler body; serverError is the
HTTPException(500, detail) raised at src/main.py line 91. -/
inductive LeadOutcome where
  | success (id : String)
  | formError (missing : List String)
  | validationFailure (e : ValidationError)
  | serverError (detail : String)
deriving DecidableEq, Repr

/-- Outcome of a Submit Estimate request; success additionally carries
the saved_files list returned at src/main.py line 129. -/
inductive EstimateOutcome where
  | success (id : String) (files : List String)
  | formError (missing : List String)
  | validationFailure (e : ValidationError)
  | serverError (detail : String)
deriving DecidableEq, Repr

/-- The upload loop of src/main.py lines 104-115: for each photo, in
order, build the unique stored name from the filename and the next
4 random bytes (entropy i is the i-th os.urandom(4) draw), write the
byte content under that name, and append the name to saved_files.
Returns (saved_files, writes in write order). -/
def processPhotos : List (String × List Nat) → (Nat → List Nat) →
    List String × List (String × List Nat)
  | [], _ => ([], [])
  | (fn, content) :: rest, entropy =>
    let nm := uniqueName fn (bytesHex (entropy 0))
    let r := processPhotos rest (fun i => entropy (i + 1))
    (nm :: r.1, (nm, content) :: r.2)

/-- Final content of the upload directory after a sequence of writes
(in write order): the last write to a name wins, as with open(..., "wb")
at src/main.py line 113. -/
def dirContents : List (String × List Nat) → String → Option (List Nat)
  | [], _ => none
  | w :: rest, nm =>
    match dirContents rest nm with
    | some c => some c
    | none => if w.1 = nm then some w.2 else none

/-- The submit_lead handler body (src/main.py lines 70-91), entered with
the required form fields present as the framework guarantees: construct
the Lead (line 78, outside the try block), then attempt the single
insert under the explicit collection name "lead" (line 88); a store
failure becomes HTTPException(500, str(e)) (line 91). Returns the
outcome, the file writes (none), and the insert calls made. -/
def submit_lead (name email phone service_needed : String)
    (address message : Option String) (store : StoreBehavior) :
    LeadOutcome × List (String × List Nat) × List (String × Document) :=
  match Lead.construct name email phone service_needed
      address message (some "website") with
  | Except.error ve => (LeadOutcome.validationFailure ve, [], [])
  | Except.ok l =>
    match store.result with
    | Except.ok i => (LeadOutcome.success i, [], [("lead", Document.lead l)])
    | Except.error d =>
      (LeadOutcome.serverError d, [], [("lead", Document.lead l)])

/-- The submit_estimate handler body (src/main.py lines 95-131), entered
with the required form fields present: the photos are written first
(lines 104-115), then the Estimate model is constructed with the saved
names (line 117, outside the try block), then the single insert under
the explicit collection name "estimate" is attempted (line 128). -/
def submit_estimate (name email phone service_needed : String)
    (address message : Option String) (photos : List (String × List Nat))
    (entropy : Nat → List Nat) (store : StoreBehavior) :
    EstimateOutcome × List (String × List Nat) × List (String × Document) :=
  let r := processPhotos photos entropy
  match Estimate.construct name email phone service_needed
      address message r.1 (some "website") with
  | Except.error ve => (EstimateOutcome.validationFailure ve, r.2, [])
  | Except.ok est =>
    match store.result with
    | Except.ok i =>
      (EstimateOutcome.success i r.1, r.2, [("estimate", Document.estimate est)])
    | Except.error d =>
      (EstimateOutcome.serverError d, r.2, [("estimate", Document.estimate est)])

/-- The full Submit Lead operation: the framework's required-field check
(modelled from the spec) in front of the submit_lead handler. -/
def submitLeadRequest (form : LeadForm) (store : StoreBehavior) :
    LeadOutcome × List (String × List Nat) × List (String × Document) :=
  match form.name, form.email, form.phone, form.service_needed with
  | some name, some email, some phone, some service_needed =>
    submit_lead name email phone service_needed form.address form.message store
  | _, _, _, _ =>
    (LeadOutcome.formError (missingRequired form.name form.email
      form.phone form.service_needed), [], [])

/-- The full Submit Estimate operation: the framework's required-field
check (modelled from the spec) in front of the submit_estimate handler. -/
def submitEstimateRequest (form : EstimateForm) (entropy : Nat → List Nat)
    (store : StoreBehavior) :
    EstimateOutcome × List (String × List Nat) × List (String × Document) :=
  match form.name, form.email, form.phone, form.service_needed with
  | some name, some email, some phone, some service_needed =>
    submit_estimate name email phone service_needed form.address form.message
      form.photos entropy store
  | _, _, _, _ =>
    (EstimateOutcome.formError (missingRequired form.name form.email
      form.phone form.service_needed), [], [])

/-- A store behavior that accepts the insert and generates id "abc123". -/
def okStore : StoreBehavior :=
  ⟨Except.ok "abc123", fun _ h => by cases h; decide⟩

/-- A store behavior whose insert fails with detail "connection refused". -/
def errStore : StoreBehavior :=
  ⟨Except.error "connection refused", fun _ h => by cases h⟩

/-- A fixed entropy stream: every os.urandom(4) draw returns four zero
bytes (a possible draw). -/
def zeroEntropy : Nat → List Nat := fun _ => [0, 0, 0, 0]

/-- The stored-filename convention in the words of the claim: every
whitespace character of the base replaced by an underscore (the code at
src/main.py line 109 replaces only the space character); stated here
only to compare the claim against the code. -/
def claimStoredName (filename : String) (suffix : String) : String :=
  String.mk (((splitext filename).1.data.map
      (fun c => if c.isWhitespace then '_' else c)).take 50) ++
    "_" ++ suffix ++ (splitext filename).2

/-- Equal character data makes equal strings. -/
theorem string_data_inj {a b : String} (h : a.data = b.data) : a = b :=
  congrArg String.mk h

/-- The hex encoding of a byte list has two characters per byte (stated
on the character data). -/
theorem bytesHex_data_length (bs : List Nat) :
    (bytesHex bs).data.length = 2 * bs.length := by
  induction bs with
  | nil => rfl
  | cons b rest ih =>
    simp only [bytesHex, List.map_cons, List.flatten_cons, List.length_append] at *
    simp [byteHex, ih, Nat.mul_succ, Nat.add_comm]

/-- The hex encoding of a byte list has two characters per byte (stated
on the string length). -/
theorem bytesHex_length (bs : List Nat) :
    (bytesHex bs).length = 2 * bs.length :=
  bytesHex_data_length bs

/-- A hex digit of a value below 16 is a lowercase hex character. -/
theorem hexDigit_isHex : ∀ n, n < 16 → isHexChar (hexDigit n) = true := by decide

/-- Every character of a byte list's hex encoding is a lowercase hex
character. -/
theorem bytesHex_chars (bs : List Nat) :
    ∀ c ∈ (bytesHex bs).data, isHexChar c = true := by
  induction bs with
  | nil => intro c hc; cases hc
  | cons b rest ih =>
    intro c hc
    simp only [bytesHex, List.map_cons, List.flatten_cons, List.mem_append] at hc
    rcases hc with hc | hc
    · simp only [byteHex, List.mem_cons, List.not_mem_nil, or_false] at hc
      rcases hc with rfl | rfl
      · exact hexDigit_isHex _ (by omega)
      · exact hexDigit_isHex _ (by omega)
    · exact ih c hc

/-- The sanitized base has at most 50 characters. -/
theorem sanitizeBase_length (b : String) : (sanitizeBase b).length ≤ 50 := by
  have h : (sanitizeBase b).length =
      ((b.data.map (fun c => if c = ' ' then '_' else c)).take 50).length := rfl
  rw [h, List.length_take]
  exact Nat.min_le_left _ _

/-- The sanitized base contains no space character. -/
theorem sanitizeBase_no_space (b : String) : ' ' ∉ (sanitizeBase b).data := by
  intro h
  have h' := List.take_subset _ _ h
  obtain ⟨c, _, hc⟩ := List.mem_map.mp h'
  by_cases hcs : c = ' ' <;> simp [hcs] at hc

/-- saved_files has one entry per uploaded photo. -/
theorem processPhotos_fst_length (ps : List (String × List Nat))
    (ent : Nat → List Nat) : (processPhotos ps ent).1.length = ps.length := by
  induction ps generalizing ent with
  | nil => rfl
  | cons p rest ih =>
    obtain ⟨fn, c⟩ := p
    simp [processPhotos, ih]

/-- The i-th entry of saved_files is the unique name built from the i-th
photo's filename and the i-th entropy draw. -/
theorem processPhotos_fst_get (ps : List (String × List Nat))
    (ent : Nat → List Nat) (i : Nat) (fn : String) (c : List Nat)
    (h : ps.get? i = some (fn, c)) :
    (processPhotos ps ent).1.get? i = some (uniqueName fn (bytesHex (ent i))) := by
  induction ps generalizing ent i with
  | nil => cases h
  | cons p rest ih =>
    obtain ⟨fn', c'⟩ := p
    cases i with
    | zero =>
      simp only [List.get?_cons_zero, Option.some.injEq, Prod.mk.injEq] at h
      simp [processPhotos, h.1]
    | succ j =>
      simp only [List.get?_cons_succ] at h
      simpa [processPhotos] using ih (fun k => ent (k + 1)) j h

/-- The i-th write pairs the i-th saved name with the i-th photo's bytes. -/
theorem processPhotos_snd_get (ps : List (String × List Nat))
    (ent : Nat → List Nat) (i : Nat) (fn : String) (c : List Nat)
    (h : ps.get? i = some (fn, c)) :
    (processPhotos ps ent).2.get? i =
      some (uniqueName fn (bytesHex (ent i)), c) := by
  induction ps generalizing ent i with
  | nil => cases h
  | cons p rest ih =>
    obtain ⟨fn', c'⟩ := p
    cases i with
    | zero =>
      simp only [List.get?_cons_zero, Option.some.injEq, Prod.mk.injEq] at h
      simp [processPhotos, h.1, h.2]
    | succ j =>
      simp only [List.get?_cons_succ] at h
      simpa [processPhotos] using ih (fun k => ent (k + 1)) j h

/-- The names written are exactly saved_files, in order. -/
theorem processPhotos_keys (ps : List (String × List Nat))
    (ent : Nat → List Nat) :
    (processPhotos ps ent).2.map Prod.fst = (processPhotos ps ent).1 := by
  induction ps generalizing ent with
  | nil => rfl
  | cons p rest ih =>
    obtain ⟨fn, c⟩ := p
    simp [processPhotos, ih]

/-- A name never written has no content in the upload directory. -/
theorem dirContents_not_mem (l : List (String × List Nat)) (nm : String)
    (h : nm ∉ l.map Prod.fst) : dirContents l nm = none := by
  induction l with
  | nil => rfl
  | cons w rest ih =>
    simp only [List.map_cons, List.mem_cons] at h
    push_neg at h
    have h1 : ¬ w.1 = nm := fun hh => h.1 hh.symm
    simp [dirContents, ih h.2, h1]

/-- When no two writes share a name, the final content under a written
name is exactly the bytes written with it. -/
theorem dirContents_nodup (l : List (String × List Nat))
    (hnd : (l.map Prod.fst).Nodup) (nm : String) (c : List Nat)
    (h : (nm, c) ∈ l) : dirContents l nm = some c := by
  induction l with
  | nil => cases h
  | cons w rest ih =>
    obtain ⟨fn, bs⟩ := w
    simp only [List.map_cons, List.nodup_cons] at hnd
    rcases List.mem_cons.mp h with heq | hmem
    · cases heq
      simp [dirContents, dirContents_not_mem rest nm hnd.1]
    · simp [dirContents, ih hnd.2 hmem]

/-- submit_lead with a malformed email: the ValidationError from line 78
propagates; nothing is written and no insert call is made. -/
theorem submit_lead_invalid (n e p s : String) (a m : Option String)
    (store : StoreBehavior) (he : isValidEmail e = false) :
    submit_lead n e p s a m store =
      (LeadOutcome.validationFailure (ValidationError.invalidEmail e), [], []) := by
  simp [submit_lead, Lead.construct, he]

/-- submit_lead with a well-formed email and a successful insert. -/
theorem submit_lead_ok (n e p s : String) (a m : Option String)
    (store : StoreBehavior) (i : String) (he : isValidEmail e = true)
    (hs : store.result = Except.ok i) :
    submit_lead n e p s a m store =
      (LeadOutcome.success i, [],
        [("lead", Document.lead ⟨n, e, p, s, a, m, some "website"⟩)]) := by
  simp [submit_lead, Lead.construct, he, hs]

/-- submit_lead with a well-formed email and a failing insert. -/
theorem submit_lead_err (n e p s : String) (a m : Option String)
    (store : StoreBehavior) (d : String) (he : isValidEmail e = true)
    (hs : store.result = Except.error d) :
    submit_lead n e p s a m store =
      (LeadOutcome.serverError d, [],
        [("lead", Document.lead ⟨n, e, p, s, a, m, some "website"⟩)]) := by
  simp [submit_lead, Lead.construct, he, hs]

/-- submit_estimate with a malformed email: the photos have already been
written when the ValidationError from line 117 propagates; no insert
call is made. -/
theorem submit_estimate_invalid (n e p s : String) (a m : Option String)
    (photos : List (String × List Nat)) (entropy : Nat → List Nat)
    (store : StoreBehavior) (he : isValidEmail e = false) :
    submit_estimate n e p s a m photos entropy store =
      (EstimateOutcome.validationFailure (ValidationError.invalidEmail e),
        (processPhotos photos entropy).2, []) := by
  simp [submit_estimate, Estimate.construct, he]

/-- submit_estimate with a well-formed email and a successful insert. -/
theorem submit_estimate_ok (n e p s : String) (a m : Option String)
    (photos : List (String × List Nat)) (entropy : Nat → List Nat)
    (store : StoreBehavior) (i : String) (he : isValidEmail e = true)
    (hs : store.result = Except.ok i) :
    submit_estimate n e p s a m photos entropy store =
      (EstimateOutcome.success i (processPhotos photos entropy).1,
        (processPhotos photos entropy).2,
        [("estimate", Document.estimate ⟨n, e, p, s, a, m,
          (processPhotos photos entropy).1, some "website"⟩)]) := by
  simp [submit_estimate, Estimate.construct, he, hs]

/-- submit_estimate with a well-formed email and a failing insert. -/
theorem submit_estimate_err (n e p s : String) (a m : Option String)
    (photos : List (String × List Nat)) (entropy : Nat → List Nat)
    (store : StoreBehavior) (d : String) (he : isValidEmail e = true)
    (hs : store.result = Except.error d) :
    submit_estimate n e p s a m photos entropy store =
      (EstimateOutcome.serverError d, (processPhotos photos entropy).2,
        [("estimate", Document.estimate ⟨n, e, p, s, a, m,
          (processPhotos photos entropy).1, some "website"⟩)]) := by
  simp [submit_estimate, Estimate.construct, he, hs]

/-- A Submit Lead request with all required fields present dispatches to
the submit_lead handler. -/
theorem submitLeadRequest_some (n e p s : String) (a m : Option String)
    (store : StoreBehavior) :
    submitLeadRequest ⟨some n, some e, some p, some s, a, m⟩ store =
      submit_lead n e p s a m store := rfl

/-- A Submit Estimate request with all required fields present
dispatches to the submit_estimate handler. -/
theorem submitEstimateRequest_some (n e p s : String) (a m : Option String)
    (photos : List (String × List Nat)) (entropy : Nat → List Nat)
    (store : StoreBehavior) :
    submitEstimateRequest ⟨some n, some e, some p, some s, a, m, photos⟩
        entropy store =
      submit_estimate n e p s a m photos entropy store := rfl

/-- A Submit Lead request missing some required field is rejected by the
framework before the handler runs: no write, no insert. -/
theorem submitLeadRequest_missing (form : LeadForm) (store : StoreBehavior)
    (h : form.name = none ∨ form.email = none ∨ form.phone = none ∨
      form.service_needed = none) :
    submitLeadRequest form store =
      (LeadOutcome.formError (missingRequired form.name form.email
        form.phone form.service_needed), [], []) := by
  obtain ⟨no, eo, po, so, a, m⟩ := form
  cases no <;> cases eo <;> cases po <;> cases so <;>
    simp_all [submitLeadRequest]

/-- A Submit Estimate request missing some required field is rejected by
the framework before the handler runs: no write, no insert. -/
theorem submitEstimateRequest_missing (form : EstimateForm)
    (entropy : Nat → List Nat) (store : StoreBehavior)
    (h : form.name = none ∨ form.email = none ∨ form.phone = none ∨
      form.service_needed = none) :
    submitEstimateRequest form entropy store =
      (EstimateOutcome.formError (missingRequired form.name form.email
        form.phone form.service_needed), [], []) := by
  obtain ⟨no, eo, po, so, a, m, ph⟩ := form
  cases no <;> cases eo <;> cases po <;> cases so <;>
    simp_all [submitEstimateRequest]

/-- Exhaustive case split of a submit_lead handler run: a malformed
email propagates as a ValidationError with no side effects, otherwise
the single insert attempt under "lead" succeeds or fails with the store
result. -/
theorem submit_lead_cases (n e p s : String) (a m : Option String)
    (store : StoreBehavior) :
    (isValidEmail e = false ∧ submit_lead n e p s a m store =
      (LeadOutcome.validationFailure (ValidationError.invalidEmail e),
        [], [])) ∨
    (∃ i, store.result = Except.ok i ∧ submit_lead n e p s a m store =
      (LeadOutcome.success i, [],
        [("lead", Document.lead ⟨n, e, p, s, a, m, some "website"⟩)])) ∨
    (∃ d, store.result = Except.error d ∧ submit_lead n e p s a m store =
      (LeadOutcome.serverError d, [],
        [("lead", Document.lead ⟨n, e, p, s, a, m, some "website"⟩)])) := by
  cases he : isValidEmail e with
  | false => exact Or.inl ⟨rfl, submit_lead_invalid n e p s a m store he⟩
  | true =>
    cases hs : store.result with
    | ok i =>
      exact Or.inr (Or.inl ⟨i, rfl, submit_lead_ok n e p s a m store i he hs⟩)
    | error d =>
      exact Or.inr (Or.inr ⟨d, rfl, submit_lead_err n e p s a m store d he hs⟩)

/-- Exhaustive case split of a submit_estimate handler run: the photos
are written in every case; a malformed email then propagates as a
ValidationError with no insert, otherwise the single insert attempt
under "estimate" succeeds or fails with the store result. -/
theorem submit_estimate_cases (n e p s : String) (a m : Option String)
    (photos : List (String × List Nat)) (entropy : Nat → List Nat)
    (store : StoreBehavior) :
    (isValidEmail e = false ∧
      submit_estimate n e p s a m photos entropy store =
      (EstimateOutcome.validationFailure (ValidationError.invalidEmail e),
        (processPhotos photos entropy).2, [])) ∨
    (∃ i, store.result = Except.ok i ∧
      submit_estimate n e p s a m photos entropy store =
      (EstimateOutcome.success i (processPhotos photos entropy).1,
        (processPhotos photos entropy).2,
        [("estimate", Document.estimate ⟨n, e, p, s, a, m,
          (processPhotos photos entropy).1, some "website"⟩)])) ∨
    (∃ d, store.result = Except.error d ∧
      submit_estimate n e p s a m photos entropy store =
      (EstimateOutcome.serverError d, (processPhotos photos entropy).2,
        [("estimate", Document.estimate ⟨n, e, p, s, a, m,
          (processPhotos photos entropy).1, some "website"⟩)])) := by
  cases he : isValidEmail e with
  | false =>
    exact Or.inl ⟨rfl,
      submit_estimate_invalid n e p s a m photos entropy store he⟩
  | true =>
    cases hs : store.result with
    | ok i =>
      exact Or.inr (Or.inl ⟨i, rfl,
        submit_estimate_ok n e p s a m photos entropy store i he hs⟩)
    | error d =>
      exact Or.inr (Or.inr ⟨d, rfl,
        submit_estimate_err n e p s a m photos entropy store d he hs⟩)

/-- Exhaustive case split of a Submit Lead request: either some required
field is absent and the framework rejects it with no side effects, or
all are present and the run is a submit_lead handler run. -/
theorem submitLeadRequest_cases (form : LeadForm) (store : StoreBehavior) :
    submitLeadRequest form store =
      (LeadOutcome.formError (missingRequired form.name form.email
        form.phone form.service_needed), [], []) ∨
    (∃ n e p s, form.name = some n ∧ form.email = some e ∧
      form.phone = some p ∧ form.service_needed = some s ∧
      submitLeadRequest form store =
        submit_lead n e p s form.address form.message store) := by
  obtain ⟨no, eo, po, so, a, m⟩ := form
  cases no <;> cases eo <;> cases po <;> cases so <;>
    first
      | exact Or.inl rfl
      | (rename_i n e p s; exact Or.inr ⟨n, e, p, s, rfl, rfl, rfl, rfl, rfl⟩)

/-- Exhaustive case split of a Submit Estimate request, analogous to
submitLeadRequest_cases. -/
theorem submitEstimateRequest_cases (form : EstimateForm)
    (entropy : Nat → List Nat) (store : StoreBehavior) :
    submitEstimateRequest form entropy store =
      (EstimateOutcome.formError (missingRequired form.name form.email
        form.phone form.service_needed), [], []) ∨
    (∃ n e p s, form.name = some n ∧ form.email = some e ∧
      form.phone = some p ∧ form.service_needed = some s ∧
      submitEstimateRequest form entropy store =
        submit_estimate n e p s form.address form.message form.photos
          entropy store) := by
  obtain ⟨no, eo, po, so, a, m, ph⟩ := form
  cases no <;> cases eo <;> cases po <;> cases so <;>
    first
      | exact Or.inl rfl
      | (rename_i n e p s; exact Or.inr ⟨n, e, p, s, rfl, rfl, rfl, rfl, rfl⟩)

/-- C3 counterexample: the claim says every whitespace character of the
base is replaced by an underscore, but the code (src/main.py line 109)
replaces only spaces: for the filename "a\tb.png" the tab survives into
the stored name, which therefore differs from the claim's convention. -/
theorem stored_name_tab_not_replaced_cex :
    uniqueName "a\tb.png" "00000000" = "a\tb_00000000.png" ∧
    claimStoredName "a\tb.png" "00000000" = "a_b_00000000.png" ∧
    uniqueName "a\tb.png" "00000000" ≠ claimStoredName "a\tb.png" "00000000" :=
  ⟨by decide, by decide, by decide⟩

/-- C3 (amended): the stored filename equals the original filename's
base with every space character (U+0020) replaced by an underscore and
truncated to at most 50 characters, followed by an underscore, an
8-hex-character suffix derived from the 4 random bytes, and the original
filename's extension (other whitespace characters, such as tab, are kept
as they are). -/
theorem stored_name_convention (f : String) (r : List Nat)
    (hr : r.length = 4) :
    uniqueName f (bytesHex r) =
      sanitizeBase (splitext f).1 ++ "_" ++ bytesHex r ++ (splitext f).2 ∧
    sanitizeBase (splitext f).1 =
      String.mk (((splitext f).1.data.map
        (fun c => if c = ' ' then '_' else c)).take 50) ∧
    (sanitizeBase (splitext f).1).length ≤ 50 ∧
    ' ' ∉ (sanitizeBase (splitext f).1).data ∧
    (bytesHex r).length = 8 ∧
    ∀ c ∈ (bytesHex r).data, isHexChar c = true := by
  refine ⟨rfl, rfl, sanitizeBase_length _, sanitizeBase_no_space _, ?_,
    bytesHex_chars r⟩
  show (bytesHex r).data.length = 8
  rw [bytesHex_data_length, hr]

/-- C3 witness at a concrete input. -/
theorem stored_name_convention_witness :
    ([(171 : Nat), 205, 1, 2].length = 4) ∧
    (uniqueName "My Photo.png" (bytesHex [171, 205, 1, 2]) =
      sanitizeBase (splitext "My Photo.png").1 ++ "_" ++
        bytesHex [171, 205, 1, 2] ++ (splitext "My Photo.png").2 ∧
    sanitizeBase (splitext "My Photo.png").1 =
      String.mk (((splitext "My Photo.png").1.data.map
        (fun c => if c = ' ' then '_' else c)).take 50) ∧
    (sanitizeBase (splitext "My Photo.png").1).length ≤ 50 ∧
    ' ' ∉ (sanitizeBase (splitext "My Photo.png").1).data ∧
    (bytesHex [171, 205, 1, 2]).length = 8 ∧
    ∀ c ∈ (bytesHex [171, 205, 1, 2]).data, isHexChar c = true) :=
  ⟨by decide, stored_name_convention "My Photo.png" [171, 205, 1, 2] (by decide)⟩

/-- C5 counterexample: the claim says constructing a Lead or Estimate
with name equal to the empty string fails with a ValidationError, but
the models (src/schemas.py lines 42-60) put no emptiness constraint on
their str fields: construction succeeds and produces a record. -/
theorem construct_empty_name_accepted_cex :
    Lead.construct "" "jane@example.com" "555-1234" "window-repair"
        none none (some "website") =
      Except.ok ⟨"", "jane@example.com", "555-1234", "window-repair",
        none, none, some "website"⟩ ∧
    Estimate.construct "" "jane@example.com" "555-1234" "window-repair"
        none none [] (some "website") =
      Except.ok ⟨"", "jane@example.com", "555-1234", "window-repair",
        none, none, [], some "website"⟩ :=
  ⟨rfl, rfl⟩

/-- C5 (amended): model construction applies no emptiness constraint to
the required text fields — a Lead or Estimate constructs successfully
exactly when the email is well-formed, whatever the other field values
(empty strings included); a malformed email still fails with a
ValidationError. -/
theorem construct_ok_iff_valid_email (n e p s : String)
    (a m src : Option String) (pf : List String) :
    (Lead.construct n e p s a m src).isOk = isValidEmail e ∧
    (Estimate.construct n e p s a m pf src).isOk = isValidEmail e := by
  by_cases he : isValidEmail e <;>
    simp [Lead.construct, Estimate.construct, he, Except.isOk, Except.toBool]

/-- C6 counterexample: the claim says entries of the returned list are
always pairwise distinct and identical original filenames never produce
colliding stored names, but the random 4-byte suffixes can repeat: with
the (possible) draw of zero bytes for both files, two photos with the
same original filename get the same stored name and the returned list
contains a duplicate. -/
theorem estimate_duplicate_stored_names_cex :
    (submitEstimateRequest ⟨some "Jane Doe", some "jane@example.com",
        some "555-1234", some "window-repair", none, none,
        [("roof.png", [1]), ("roof.png", [2])]⟩ zeroEntropy okStore).1 =
      EstimateOutcome.success "abc123"
        ["roof_00000000.png", "roof_00000000.png"] ∧
    ¬ (["roof_00000000.png", "roof_00000000.png"] : List String).Nodup :=
  ⟨by decide, by decide⟩

/-- C6 (amended): for files with identical original filenames the stored
names are distinct if and only if the 8-hex random suffixes drawn for
them are distinct; collision-freedom is probabilistic (it holds exactly
when the 4-byte random values differ), not absolute. -/
theorem uniqueName_same_filename_distinct_iff (f : String) (r r' : List Nat)
    (hr : r.length = 4) (hr' : r'.length = 4) :
    uniqueName f (bytesHex r) = uniqueName f (bytesHex r') ↔
      bytesHex r = bytesHex r' := by
  constructor
  · intro h
    have hdata := congrArg String.data h
    simp only [uniqueName, String.data_append] at hdata
    have hlen : ((sanitizeBase (splitext f).1).data ++ "_".data ++
        (bytesHex r).data).length =
        ((sanitizeBase (splitext f).1).data ++ "_".data ++
        (bytesHex r').data).length := by
      simp [List.length_append, bytesHex_data_length, bytesHex_length, hr, hr']
    have h1 := (List.append_inj hdata hlen).1
    exact string_data_inj (List.append_cancel_left h1)
  · intro h
    exact congrArg (fun sfx => sanitizeBase (splitext f).1 ++ "_" ++ sfx ++
      (splitext f).2) h

/-- C6 witness at a concrete input: differing random bytes give
differing suffixes, hence distinct stored names. -/
theorem uniqueName_same_filename_distinct_iff_witness :
    uniqueName "roof.png" (bytesHex [0, 0, 0, 0]) =
        uniqueName "roof.png" (bytesHex [0, 0, 0, 1]) ↔
      bytesHex [0, 0, 0, 0] = bytesHex [0, 0, 0, 1] :=
  uniqueName_same_filename_distinct_iff "roof.png" [0, 0, 0, 0] [0, 0, 0, 1]
    (by decide) (by decide)

/-- C1 counterexample: the claim says no file is written before a
validation failure is detected, but in submit_estimate the uploads are
written (lines 104-115) before the Estimate model is constructed (line
117): a request with a malformed email and one photo returns a
validation failure with the photo already in the upload directory. -/
theorem estimate_invalid_email_file_written_cex :
    (submitEstimateRequest ⟨some "Jane Doe", some "not-an-email",
        some "555-1234", some "window-repair", none, none,
        [("a.png", [1, 2])]⟩ zeroEntropy okStore).1 =
      EstimateOutcome.validationFailure
        (ValidationError.invalidEmail "not-an-email") ∧
    (submitEstimateRequest ⟨some "Jane Doe", some "not-an-email",
        some "555-1234", some "window-repair", none, none,
        [("a.png", [1, 2])]⟩ zeroEntropy okStore).2.1 =
      [("a_00000000.png", [1, 2])] :=
  ⟨by decide, by decide⟩

/-- C1 (amended): a request whose fields fail validation (a required
field missing or a malformed email) returns a validation failure and no
store insert call is made; Submit Lead writes no files at all, and a
Submit Estimate rejected for a missing required field writes no files
either — but a Submit Estimate with a malformed email has already
written its uploaded files when the failure is raised. -/
theorem validation_rejection_no_insert (form : LeadForm)
    (eform : EstimateForm) (entropy : Nat → List Nat)
    (store : StoreBehavior) :
    (submitLeadRequest form store).2.1 = [] ∧
    (∀ v, (submitLeadRequest form store).1 =
        LeadOutcome.validationFailure v →
      (submitLeadRequest form store).2.2 = []) ∧
    (∀ fs, (submitLeadRequest form store).1 = LeadOutcome.formError fs →
      (submitLeadRequest form store).2.2 = []) ∧
    (∀ v, (submitEstimateRequest eform entropy store).1 =
        EstimateOutcome.validationFailure v →
      (submitEstimateRequest eform entropy store).2.2 = []) ∧
    (∀ fs, (submitEstimateRequest eform entropy store).1 =
        EstimateOutcome.formError fs →
      (submitEstimateRequest eform entropy store).2.1 = [] ∧
      (submitEstimateRequest eform entropy store).2.2 = []) := by
  refine ⟨?_, ?_, ?_, ?_, ?_⟩
  · rcases submitLeadRequest_cases form store with h | ⟨n, e, p, s, _, _, _, _, h⟩
    · rw [h]
    · rcases submit_lead_cases n e p s form.address form.message store with
        ⟨_, h2⟩ | ⟨i, _, h2⟩ | ⟨d, _, h2⟩ <;> rw [h, h2]
  · intro v hv
    rcases submitLeadRequest_cases form store with h | ⟨n, e, p, s, _, _, _, _, h⟩
    · rw [h]
    · rcases submit_lead_cases n e p s form.address form.message store with
        ⟨_, h2⟩ | ⟨i, _, h2⟩ | ⟨d, _, h2⟩ <;> rw [h, h2] at hv ⊢ <;> simp_all
  · intro fs hf
    rcases submitLeadRequest_cases form store with h | ⟨n, e, p, s, _, _, _, _, h⟩
    · rw [h]
    · rcases submit_lead_cases n e p s form.address form.message store with
        ⟨_, h2⟩ | ⟨i, _, h2⟩ | ⟨d, _, h2⟩ <;> rw [h, h2] at hf ⊢ <;> simp_all
  · intro v hv
    rcases submitEstimateRequest_cases eform entropy store with
      h | ⟨n, e, p, s, _, _, _, _, h⟩
    · rw [h]
    · rcases submit_estimate_cases n e p s eform.address eform.message
        eform.photos entropy store with
        ⟨_, h2⟩ | ⟨i, _, h2⟩ | ⟨d, _, h2⟩ <;> rw [h, h2] at hv ⊢ <;> simp_all
  · intro fs hf
    rcases submitEstimateRequest_cases eform entropy store with
      h | ⟨n, e, p, s, _, _, _, _, h⟩
    · rw [h]; exact ⟨rfl, rfl⟩
    · rcases submit_estimate_cases n e p s eform.address eform.message
        eform.photos entropy store with
        ⟨_, h2⟩ | ⟨i, _, h2⟩ | ⟨d, _, h2⟩ <;> rw [h, h2] at hf ⊢ <;> simp_all

/-- C1 witness: a Submit Lead with a malformed email makes no insert
call even with a store that would fail loudly. -/
theorem validation_rejection_no_insert_witness :
    (submitLeadRequest ⟨some "Jane Doe", some "not-an-email",
      some "555-1234", some "window-repair", none, none⟩ errStore).2.2 = [] :=
  (validation_rejection_no_insert
    ⟨some "Jane Doe", some "not-an-email", some "555-1234",
      some "window-repair", none, none⟩
    ⟨some "Jane Doe", some "not-an-email", some "555-1234",
      some "window-repair", none, none, []⟩
    zeroEntropy errStore).2.1
    (ValidationError.invalidEmail "not-an-email") (by decide)

/-- C2 counterexample: with the (possible) equal random draws for two
uploads both named "a.png", both get the stored name "a_00000000.png";
the request succeeds and the returned list matches upload order, but the
file finally stored under the first returned name holds the second
upload's bytes [2], not the first upload's bytes [1]. -/
theorem estimate_overwrite_content_cex :
    (submitEstimateRequest ⟨some "Jane Doe", some "jane@example.com",
        some "555-1234", some "window-repair", none, none,
        [("a.png", [1]), ("a.png", [2])]⟩ zeroEntropy okStore).1 =
      EstimateOutcome.success "abc123"
        ["a_00000000.png", "a_00000000.png"] ∧
    dirContents (submitEstimateRequest ⟨some "Jane Doe",
        some "jane@example.com", some "555-1234", some "window-repair",
        none, none, [("a.png", [1]), ("a.png", [2])]⟩
        zeroEntropy okStore).2.1 "a_00000000.png" = some [2] ∧
    some ([2] : List Nat) ≠ some [1] :=
  ⟨by decide, by decide, by decide⟩

/-- C2 (amended): for a Submit Estimate request with N uploaded
(filename, bytes) pairs whose insert the store accepts, the returned
filename list is the saved-files list: it has length N, its k-th entry
is the name generated from the k-th upload (order matches upload order),
the k-th write of this request pairs that name with the k-th upload's
bytes, and — provided the generated names are pairwise distinct, which
only a random-suffix collision can violate — the file finally stored
under the k-th returned name holds exactly the k-th upload's bytes. -/
theorem estimate_saved_files_correct (n e p s : String)
    (a m : Option String) (photos : List (String × List Nat))
    (entropy : Nat → List Nat) (store : StoreBehavior) (i : String)
    (he : isValidEmail e = true) (hs : store.result = Except.ok i) :
    (submitEstimateRequest ⟨some n, some e, some p, some s, a, m, photos⟩
        entropy store).1 =
      EstimateOutcome.success i (processPhotos photos entropy).1 ∧
    (submitEstimateRequest ⟨some n, some e, some p, some s, a, m, photos⟩
        entropy store).2.1 = (processPhotos photos entropy).2 ∧
    (processPhotos photos entropy).1.length = photos.length ∧
    (∀ k fn content, photos.get? k = some (fn, content) →
      (processPhotos photos entropy).1.get? k =
        some (uniqueName fn (bytesHex (entropy k))) ∧
      (processPhotos photos entropy).2.get? k =
        some (uniqueName fn (bytesHex (entropy k)), content)) ∧
    ((processPhotos photos entropy).1.Nodup →
      ∀ k fn content, photos.get? k = some (fn, content) →
        dirContents (processPhotos photos entropy).2
          (uniqueName fn (bytesHex (entropy k))) = some content) := by
  rw [submitEstimateRequest_some,
    submit_estimate_ok n e p s a m photos entropy store i he hs]
  refine ⟨rfl, rfl, processPhotos_fst_length photos entropy, ?_, ?_⟩
  · intro k fn content hk
    exact ⟨processPhotos_fst_get photos entropy k fn content hk,
      processPhotos_snd_get photos entropy k fn content hk⟩
  · intro hnd k fn content hk
    have hmem : (uniqueName fn (bytesHex (entropy k)), content) ∈
        (processPhotos photos entropy).2 :=
      List.get?_mem (processPhotos_snd_get photos entropy k fn content hk)
    have hkeys : ((processPhotos photos entropy).2.map Prod.fst).Nodup := by
      rw [processPhotos_keys]; exact hnd
    exact dirContents_nodup _ hkeys _ _ hmem

/-- C2 witness at a concrete one-photo request. -/
theorem estimate_saved_files_correct_witness :
    (submitEstimateRequest ⟨some "Jane Doe", some "jane@example.com",
        some "555-1234", some "window-repair", none, none,
        [("My Photo.png", [9, 8, 7])]⟩ zeroEntropy okStore).1 =
      EstimateOutcome.success "abc123"
        (processPhotos [("My Photo.png", [9, 8, 7])] zeroEntropy).1 ∧
    (submitEstimateRequest ⟨some "Jane Doe", some "jane@example.com",
        some "555-1234", some "window-repair", none, none,
        [("My Photo.png", [9, 8, 7])]⟩ zeroEntropy okStore).2.1 =
      (processPhotos [("My Photo.png", [9, 8, 7])] zeroEntropy).2 ∧
    (processPhotos [("My Photo.png", [9, 8, 7])] zeroEntropy).1.length =
      ([("My Photo.png", [9, 8, 7])] : List (String × List Nat)).length ∧
    (∀ k fn content,
      ([("My Photo.png", [9, 8, 7])] : List (String × List Nat)).get? k =
        some (fn, content) →
      (processPhotos [("My Photo.png", [9, 8, 7])] zeroEntropy).1.get? k =
        some (uniqueName fn (bytesHex (zeroEntropy k))) ∧
      (processPhotos [("My Photo.png", [9, 8, 7])] zeroEntropy).2.get? k =
        some (uniqueName fn (bytesHex (zeroEntropy k)), content)) ∧
    ((processPhotos [("My Photo.png", [9, 8, 7])] zeroEntropy).1.Nodup →
      ∀ k fn content,
        ([("My Photo.png", [9, 8, 7])] : List (String × List Nat)).get? k =
          some (fn, content) →
        dirContents (processPhotos [("My Photo.png", [9, 8, 7])]
          zeroEntropy).2 (uniqueName fn (bytesHex (zeroEntropy k))) =
          some content) :=
  estimate_saved_files_correct "Jane Doe" "jane@example.com" "555-1234"
    "window-repair" none none [("My Photo.png", [9, 8, 7])] zeroEntropy
    okStore "abc123" (by decide) rfl

/-- C4: for every valid Lead input (required fields present, email
well-formed) whose insert the store accepts, Submit Lead returns success
with the store-generated identifier, that identifier is non-empty, and
exactly one document is inserted, tagged with collection "lead". -/
theorem lead_valid_success (n e p s : String) (a m : Option String)
    (store : StoreBehavior) (i : String) (he : isValidEmail e = true)
    (hs : store.result = Except.ok i) :
    (submitLeadRequest ⟨some n, some e, some p, some s, a, m⟩ store).1 =
      LeadOutcome.success i ∧
    i ≠ "" ∧
    (submitLeadRequest ⟨some n, some e, some p, some s, a, m⟩ store).2.2 =
      [("lead", Document.lead ⟨n, e, p, s, a, m, some "website"⟩)] := by
  rw [submitLeadRequest_some, submit_lead_ok n e p s a m store i he hs]
  exact ⟨rfl, store.id_nonempty i hs, rfl⟩

/-- C4 witness at the spec's end-to-end example input. -/
theorem lead_valid_success_witness :
    (submitLeadRequest ⟨some "Jane Doe", some "jane@example.com",
        some "555-1234", some "window-repair", none, none⟩ okStore).1 =
      LeadOutcome.success "abc123" ∧
    "abc123" ≠ "" ∧
    (submitLeadRequest ⟨some "Jane Doe", some "jane@example.com",
        some "555-1234", some "window-repair", none, none⟩ okStore).2.2 =
      [("lead", Document.lead ⟨"Jane Doe", "jane@example.com", "555-1234",
        "window-repair", none, none, some "website"⟩)] :=
  lead_valid_success "Jane Doe" "jane@example.com" "555-1234"
    "window-repair" none none okStore "abc123" (by decide) rfl

/-- C7: every document a Submit Lead request inserts goes to the fixed,
explicitly passed collection name "lead", and every document a Submit
Estimate request inserts to "estimate", for every request and store
behavior — the name is a literal at the call site (src/main.py lines 88
and 128), never derived from the model instance. -/
theorem insert_collections_fixed (form : LeadForm) (eform : EstimateForm)
    (entropy : Nat → List Nat) (store : StoreBehavior) :
    (∀ c ∈ (submitLeadRequest form store).2.2, c.1 = "lead") ∧
    (∀ c ∈ (submitEstimateRequest eform entropy store).2.2,
      c.1 = "estimate") := by
  constructor
  · rcases submitLeadRequest_cases form store with h | ⟨n, e, p, s, _, _, _, _, h⟩
    · rw [h]; intro c hc; simp at hc
    · rcases submit_lead_cases n e p s form.address form.message store with
        ⟨_, h2⟩ | ⟨i, _, h2⟩ | ⟨d, _, h2⟩ <;> rw [h, h2] <;>
        intro c hc <;> simp_all
  · rcases submitEstimateRequest_cases eform entropy store with
      h | ⟨n, e, p, s, _, _, _, _, h⟩
    · rw [h]; intro c hc; simp at hc
    · rcases submit_estimate_cases n e p s eform.address eform.message
        eform.photos entropy store with
        ⟨_, h2⟩ | ⟨i, _, h2⟩ | ⟨d, _, h2⟩ <;> rw [h, h2] <;>
        intro c hc <;> simp_all

/-- C7 witness: the insert calls of one concrete Lead and one concrete
Estimate request carry the literal collection names. -/
theorem insert_collections_fixed_witness :
    ("lead", Document.lead ⟨"Jane Doe", "jane@example.com", "555-1234",
      "window-repair", none, none, some "website"⟩).1 = "lead" ∧
    ("estimate", Document.estimate ⟨"Jane Doe", "jane@example.com",
      "555-1234", "window-repair", none, none, [],
      some "website"⟩).1 = "estimate" :=
  ⟨(insert_collections_fixed
      ⟨some "Jane Doe", some "jane@example.com", some "555-1234",
        some "window-repair", none, none⟩
      ⟨some "Jane Doe", some "jane@example.com", some "555-1234",
        some "window-repair", none, none, []⟩
      zeroEntropy okStore).1 _ (by decide),
    (insert_collections_fixed
      ⟨some "Jane Doe", some "jane@example.com", some "555-1234",
        some "window-repair", none, none⟩
      ⟨some "Jane Doe", some "jane@example.com", some "555-1234",
        some "window-repair", none, none, []⟩
      zeroEntropy okStore).2 _ (by decide)⟩

/-- C8: when the store insert fails, each operation makes exactly one
insert attempt (no retry) and returns the server-error indication
carrying the underlying failure's detail; no success is synthesized. -/
theorem store_failure_single_attempt (n e p s : String)
    (a m : Option String) (photos : List (String × List Nat))
    (entropy : Nat → List Nat) (store : StoreBehavior) (d : String)
    (he : isValidEmail e = true) (hs : store.result = Except.error d) :
    (submitLeadRequest ⟨some n, some e, some p, some s, a, m⟩ store).1 =
      LeadOutcome.serverError d ∧
    (submitLeadRequest ⟨some n, some e, some p, some s, a, m⟩
      store).2.2.length = 1 ∧
    (submitEstimateRequest ⟨some n, some e, some p, some s, a, m, photos⟩
        entropy store).1 = EstimateOutcome.serverError d ∧
    (submitEstimateRequest ⟨some n, some e, some p, some s, a, m, photos⟩
      entropy store).2.2.length = 1 := by
  rw [submitLeadRequest_some, submit_lead_err n e p s a m store d he hs,
    submitEstimateRequest_some,
    submit_estimate_err n e p s a m photos entropy store d he hs]
  exact ⟨rfl, rfl, rfl, rfl⟩

/-- C8 witness with a concrete failing store. -/
theorem store_failure_single_attempt_witness :
    (submitLeadRequest ⟨some "Jane Doe", some "jane@example.com",
        some "555-1234", some "window-repair", none, none⟩ errStore).1 =
      LeadOutcome.serverError "connection refused" ∧
    (submitLeadRequest ⟨some "Jane Doe", some "jane@example.com",
        some "555-1234", some "window-repair", none, none⟩
      errStore).2.2.length = 1 ∧
    (submitEstimateRequest ⟨some "Jane Doe", some "jane@example.com",
        some "555-1234", some "window-repair", none, none, []⟩
        zeroEntropy errStore).1 =
      EstimateOutcome.serverError "connection refused" ∧
    (submitEstimateRequest ⟨some "Jane Doe", some "jane@example.com",
        some "555-1234", some "window-repair", none, none, []⟩
      zeroEntropy errStore).2.2.length = 1 :=
  store_failure_single_attempt "Jane Doe" "jane@example.com" "555-1234"
    "window-repair" none none [] zeroEntropy errStore
    "connection refused" (by decide) rfl

/-- C9: every document either operation inserts carries source =
"website", fixed at the call sites (src/main.py lines 85 and 125);
no caller-controlled form field can supply or override it. -/
theorem persisted_source_website (form : LeadForm) (eform : EstimateForm)
    (entropy : Nat → List Nat) (store : StoreBehavior) :
    (∀ c ∈ (submitLeadRequest form store).2.2,
      docSource c.2 = some "website") ∧
    (∀ c ∈ (submitEstimateRequest eform entropy store).2.2,
      docSource c.2 = some "website") := by
  constructor
  · rcases submitLeadRequest_cases form store with h | ⟨n, e, p, s, _, _, _, _, h⟩
    · rw [h]; intro c hc; simp at hc
    · rcases submit_lead_cases n e p s form.address form.message store with
        ⟨_, h2⟩ | ⟨i, _, h2⟩ | ⟨d, _, h2⟩ <;> rw [h, h2] <;>
        intro c hc <;> simp_all [docSource]
  · rcases submitEstimateRequest_cases eform entropy store with
      h | ⟨n, e, p, s, _, _, _, _, h⟩
    · rw [h]; intro c hc; simp at hc
    · rcases submit_estimate_cases n e p s eform.address eform.message
        eform.photos entropy store with
        ⟨_, h2⟩ | ⟨i, _, h2⟩ | ⟨d, _, h2⟩ <;> rw [h, h2] <;>
        intro c hc <;> simp_all [docSource]

/-- C9 witness: the documents inserted by one concrete Lead and one
concrete Estimate request carry source "website". -/
theorem persisted_source_website_witness :
    docSource ("lead", Document.lead ⟨"Ann Lee", "ann@mail.example.com",
      "555-0000", "screen-repair", none, none, some "website"⟩).2 =
      some "website" ∧
    docSource ("estimate", Document.estimate ⟨"Ann Lee",
      "ann@mail.example.com", "555-0000", "screen-repair", none, none,
      [], some "website"⟩).2 = some "website" :=
  ⟨(persisted_source_website
      ⟨some "Ann Lee", some "ann@mail.example.com", some "555-0000",
        some "screen-repair", none, none⟩
      ⟨some "Ann Lee", some "ann@mail.example.com", some "555-0000",
        some "screen-repair", none, none, []⟩
      zeroEntropy okStore).1 _ (by decide),
    (persisted_source_website
      ⟨some "Ann Lee", some "ann@mail.example.com", some "555-0000",
        some "screen-repair", none, none⟩
      ⟨some "Ann Lee", some "ann@mail.example.com", some "555-0000",
        some "screen-repair", none, none, []⟩
      zeroEntropy okStore).2 _ (by decide)⟩

/-- C10: a ValidationError raised during model construction propagates
out of the handler unhandled — the try block wrapping only the insert
(src/main.py lines 87 and 127) never catches it — so whatever the
store's behavior the outcome is the validation failure itself, never the
store-failure server error and never a success, and no insert call is
made. -/
theorem validation_error_not_masked (n e p s : String)
    (a m : Option String) (photos : List (String × List Nat))
    (entropy : Nat → List Nat) (store : StoreBehavior)
    (he : isValidEmail e = false) :
    submitLeadRequest ⟨some n, some e, some p, some s, a, m⟩ store =
      (LeadOutcome.validationFailure (ValidationError.invalidEmail e),
        [], []) ∧
    (submitEstimateRequest ⟨some n, some e, some p, some s, a, m, photos⟩
        entropy store).1 =
      EstimateOutcome.validationFailure (ValidationError.invalidEmail e) ∧
    (submitEstimateRequest ⟨some n, some e, some p, some s, a, m, photos⟩
      entropy store).2.2 = [] := by
  rw [submitLeadRequest_some, submit_lead_invalid n e p s a m store he,
    submitEstimateRequest_some,
    submit_estimate_invalid n e p s a m photos entropy store he]
  exact ⟨rfl, rfl, rfl⟩

/-- C10 witness: with a malformed email and a store that would fail, the
outcome is still the validation failure, not a server error. -/
theorem validation_error_not_masked_witness :
    submitLeadRequest ⟨some "Jane Doe", some "jane(at)example.com",
        some "555-1234", some "window-repair", none, none⟩ errStore =
      (LeadOutcome.validationFailure
        (ValidationError.invalidEmail "jane(at)example.com"), [], []) ∧
    (submitEstimateRequest ⟨some "Jane Doe", some "jane(at)example.com",
        some "555-1234", some "window-repair", none, none, []⟩
        zeroEntropy errStore).1 =
      EstimateOutcome.validationFailure
        (ValidationError.invalidEmail "jane(at)example.com") ∧
    (submitEstimateRequest ⟨some "Jane Doe", some "jane(at)example.com",
        some "555-1234", some "window-repair", none, none, []⟩
      zeroEntropy errStore).2.2 = [] :=
  validation_error_not_masked "Jane Doe" "jane(at)example.com" "555-1234"
    "window-repair" none none [] zeroEntropy errStore (by decide)

